import Mathlib

/-!
Shallow embedding of the `caldav_mcp` server (files `mcp_server.py` and
`caldav_client.py`).  External collaborators (the `caldav` library, the
CalDAV server it talks to, and `datetime.strptime`) are modelled as
world-supplied data: every external call site reads an `Except Exc _`
result from the corresponding field of the modelled world, so an
exception raised by the collaborator is an `Except.error` threaded to the
enclosing `try/except`.  Each public tool operation returns the response
dictionary together with a trace of the external effects it performed
(calendar listing, event listing, search, date search, timestamp parse,
add, delete), so statements such as "performs no mutation" are about the
trace.
-/

namespace CaldavMcp

/-- A raised Python exception: its message (`str(e)`) and whether it is a
`ValueError` (the one exception class some handlers treat specially). -/
structure Exc where
  isValueError : Bool
  msg : String
deriving DecidableEq

instance {ε α : Type} [DecidableEq ε] [DecidableEq α] : DecidableEq (Except ε α) := fun x y =>
  match x, y with
  | .ok a, .ok b =>
    if h : a = b then isTrue (by rw [h]) else isFalse fun hc => h (Except.ok.inj hc)
  | .ok _, .error _ => isFalse fun hc => Except.noConfusion hc
  | .error _, .ok _ => isFalse fun hc => Except.noConfusion hc
  | .error e, .error f =>
    if h : e = f then isTrue (by rw [h]) else isFalse fun hc => h (Except.error.inj hc)

/-- A Python `datetime` value (the `.dt` of an icalendar DTSTART/DTEND
property): calendar fields plus an optional UTC offset in minutes
(`none` models a naive datetime, for which `%z` formats as ""). -/
structure PyDateTime where
  year : Nat
  month : Nat
  day : Nat
  hour : Nat
  minute : Nat
  second : Nat
  utcOffsetMinutes : Option Int
deriving DecidableEq

/-- Zero-padded two-digit decimal, as Python `%m`/`%d`/`%H`/`%M`/`%S`. -/
def pad2 (n : Nat) : String :=
  if n < 10 then "0" ++ toString n else toString n

/-- Zero-padded four-digit decimal, as Python `%Y`. -/
def pad4 (n : Nat) : String :=
  if n < 10 then "000" ++ toString n
  else if n < 100 then "00" ++ toString n
  else if n < 1000 then "0" ++ toString n
  else toString n

/-- Python `%z`: empty for a naive datetime, else sign plus HHMM. -/
def formatZ : Option Int → String
  | none => ""
  | some off =>
    (if off < 0 then "-" else "+") ++ pad2 (off.natAbs / 60) ++ pad2 (off.natAbs % 60)

/-- `dt.strftime("%Y%m%dT%H%M%S%z")`, the wire timestamp format. -/
def strftimeWire (dt : PyDateTime) : String :=
  pad4 dt.year ++ pad2 dt.month ++ pad2 dt.day ++ "T" ++
    pad2 dt.hour ++ pad2 dt.minute ++ pad2 dt.second ++ formatZ dt.utcOffsetMinutes

/-- The VEVENT component of an upstream event (`event.icalendar_component`),
with each property `some`/`none` according to presence.  Property values are
already stringified; DTSTART/DTEND carry their `.dt` datetime value. -/
structure IcalComponent where
  uid : Option String
  summary : Option String
  description : Option String
  location : Option String
  dtstart : Option PyDateTime
  dtend : Option PyDateTime
deriving DecidableEq

/-- An upstream `caldav` event object.  `component = none` models a missing
or falsy `icalendar_component`; `deleteResult` is the behaviour of the
event's `delete()` call against the server. -/
structure CalEvent where
  component : Option IcalComponent
  deleteResult : Except Exc Unit
deriving DecidableEq

/-- The minimal iCal payload `create_event` constructs
(`caldav.Event(ical, uid=…, dtstart=…, dtend=…, summary=…, location=…,
description=…)`) and submits via `calendar.add_event`. -/
structure EventPayload where
  uid : String
  dtstart : String
  dtend : String
  summary : String
  location : String
  description : String
deriving DecidableEq

/-- The caller-supplied `event_data` dictionary.  A field is `none` exactly
when the corresponding key is absent from the dict.  The `end` key is named
`end_` because `end` is reserved in Lean. -/
structure EventData where
  uid : Option String
  summary : Option String
  start : Option String
  end_ : Option String
  location : Option String
  description : Option String
deriving DecidableEq

/-- The normalized pydantic `CalendarEvent` model from `caldav_client.py`. -/
structure CalendarEvent where
  uid : String
  summary : String
  start : String
  end_ : String
  location : Option String
  description : Option String
deriving DecidableEq

/-- One entry of the `get_calendars` response. -/
structure CalendarEntry where
  name : String
  id : String
deriving DecidableEq

/-- An upstream calendar object together with the behaviour of the external
calls made against it.  `idAttr`/`nameAttr` are the `id`/`name` attributes
when present; `hashStr` is `str(hash(calendar))`, the fallback id. -/
structure Calendar where
  idAttr : Option String
  hashStr : String
  nameAttr : Option String
  eventsResult : Except Exc (List CalEvent)
  searchResult : String → Except Exc (List CalEvent)
  dateSearchResult : PyDateTime → PyDateTime → Except Exc (List CalEvent)
  addEventResult : EventPayload → Except Exc Unit

/-- The principal object; `calendarsResult` is the behaviour of
`principal.calendars()`. -/
structure Principal where
  calendarsResult : Except Exc (List Calendar)

/-- The state of a `CalDAVMCPServer` instance after `__init__`. -/
structure ServerState where
  url : Option String
  username : Option String
  password : Option String
  principal : Option Principal

/-- The startup environment: the three configuration settings read from
environment variables, plus the behaviour of the
`caldav.DAVClient(url, username, password).principal()` call made by
`_connect`. -/
structure Env where
  uri : Option String
  username : Option String
  password : Option String
  connectResult : Except Exc Principal

/-- `CalDAVMCPServer.__init__`: reads configuration and calls `_connect()`
unconditionally; there is no `try/except`, so an exception raised by the
connect call propagates out of the constructor. -/
def initServer (env : Env) : Except Exc ServerState :=
  match env.connectResult with
  | .error e => .error e
  | .ok p => .ok ⟨env.uri, env.username, env.password, some p⟩

/-- Values appearing in tool responses.  `rawEvents`/`rawEvent` are
unconverted upstream event objects placed in a response; `events` is a list
of normalized `CalendarEvent` records (the shape the spec's Event Model
standardizes on, used here to compare the two representations). -/
inductive Val where
  | str (s : String)
  | num (n : Nat)
  | rawEvents (es : List CalEvent)
  | rawEvent (e : CalEvent)
  | calendars (cs : List CalendarEntry)
  | eventData (d : EventData)
  | events (es : List CalendarEvent)
deriving DecidableEq

/-- A tool response: the returned Python dict as an ordered key/value list. -/
abbrev Resp := List (String × Val)

/-- The uniform error envelope. -/
def errEnv (m : String) : Resp := [("error", Val.str m)]

/-- External effects performed during an operation. -/
inductive Eff where
  | calendars
  | events
  | search (eventId : String)
  | dateSearch (s e : PyDateTime)
  | strptime (s : String)
  | addEvent (p : EventPayload)
  | delete (e : CalEvent)
deriving DecidableEq

/-- The computation inside a `try` block: either a normal return of `α` or a
raised exception, together with the external-effect trace so far. -/
abbrev M (α : Type) : Type := Except Exc α × List Eff

def M.pure {α : Type} (a : α) : M α := (.ok a, [])

/-- An external call: its world-supplied outcome, logged in the trace. -/
def M.call {α : Type} (eff : Eff) (r : Except Exc α) : M α := (r, [eff])

/-- Sequencing inside a `try` block: a raised exception skips the rest. -/
def M.bind {α β : Type} (x : M α) (f : α → M β) : M β :=
  match x with
  | (.ok a, t) => ((f a).1, t ++ (f a).2)
  | (.error e, t) => (.error e, t)

/-- Lift an already-handled sub-call (one that returns a response and never
raises) into a `try` block. -/
def M.lift (x : Resp × List Eff) : M Resp := (.ok x.1, x.2)

/-- `getattr(calendar, "id", str(hash(calendar)))`: the id under which a
calendar is both reported by `get_calendars` and looked up by
`_get_calendar_by_id`. -/
def calId (c : Calendar) : String := c.idAttr.getD c.hashStr

/-- `getattr(calendar, "name", "Unknown")`. -/
def calName (c : Calendar) : String := c.nameAttr.getD "Unknown"

/-- The loop of `_get_calendar_by_id`: first calendar in the listing whose
id equals `calendar_id`, else `None`. -/
def resolveCalendar (cals : List Calendar) (cid : String) : Option Calendar :=
  cals.find? fun c => calId c == cid

/-- `_get_calendar_by_id`: lists the principal's calendars (a live external
call) and scans for the first id match. -/
def getCalendarById (p : Principal) (cid : String) : M (Option Calendar) :=
  M.bind (M.call .calendars p.calendarsResult) fun cals =>
    M.pure (resolveCalendar cals cid)

/-- Python `str.lower()` (restricted to the character-wise lowercasing that
`Char.toLower` provides). -/
def lowerStr (s : String) : String := String.mk (s.data.map Char.toLower)

/-- Python `sub in hay` substring containment. -/
def pyContains (hay sub : String) : Bool := decide (List.IsInfix sub.data hay.data)

/-- The search score of one event component: 2 if the lowercased query is a
substring of the lowercased summary, plus 1 for the description. -/
def score (query : String) (c : IcalComponent) : Nat :=
  (if pyContains (lowerStr (c.summary.getD "")) (lowerStr query) then 2 else 0) +
    (if pyContains (lowerStr (c.description.getD "")) (lowerStr query) then 1 else 0)

/-- The score of an event; events without a component are never scored. -/
def eventScore (query : String) (e : CalEvent) : Nat :=
  match e.component with
  | none => 0
  | some c => score query c

/-- The `scored_events` list built by the loop in `search_events`: events
without a component are skipped, events with score 0 are dropped, the rest
are paired with their score in listing order. -/
def scoredEvents (query : String) (evs : List CalEvent) : List (Nat × CalEvent) :=
  evs.filterMap fun e =>
    match e.component with
    | none => none
    | some c =>
      let s := score query c
      if s > 0 then some (s, e) else none

/-- Stable insertion for descending-by-score order: the inserted element
goes before the first element whose score is not larger (Python's
`list.sort` is stable, and `reverse=True` keeps equal elements in their
original relative order). -/
def insertDesc (p : Nat × CalEvent) : List (Nat × CalEvent) → List (Nat × CalEvent)
  | [] => [p]
  | q :: qs => if q.1 ≤ p.1 then p :: q :: qs else q :: insertDesc p qs

/-- `scored_events.sort(key=lambda x: x[0], reverse=True)` as a stable
descending insertion sort. -/
def sortDesc : List (Nat × CalEvent) → List (Nat × CalEvent)
  | [] => []
  | p :: ps => insertDesc p (sortDesc ps)

/-- `get_calendars`. -/
def get_calendars (s : ServerState) : Resp × List Eff :=
  match s.principal with
  | none => (errEnv "Not connected to CalDAV server", [])
  | some p =>
    match M.bind (M.call .calendars p.calendarsResult) fun cals =>
      M.pure [("calendars", Val.calendars (cals.map fun c => ⟨calName c, calId c⟩))] with
    | (.ok r, t) => (r, t)
    | (.error e, t) => (errEnv e.msg, t)

/-- The `try` block of `get_events`. -/
def getEventsBody (p : Principal) (cid : String) : M Resp :=
  M.bind (getCalendarById p cid) fun ocal =>
    match ocal with
    | none => M.pure (errEnv ("Calendar with ID " ++ cid ++ " not found"))
    | some cal =>
      M.bind (M.call .events cal.eventsResult) fun evs =>
        M.pure [("events", Val.rawEvents evs)]

/-- `get_events`: note the success envelope carries the raw upstream event
objects, unconverted. -/
def get_events (s : ServerState) (cid : String) : Resp × List Eff :=
  match s.principal with
  | none => (errEnv "Not connected to CalDAV server", [])
  | some p =>
    match getEventsBody p cid with
    | (.ok r, t) => (r, t)
    | (.error e, t) => (errEnv e.msg, t)

/-- The `try` block of `get_event_by_id`. -/
def getEventByIdBody (p : Principal) (cid eid : String) : M Resp :=
  M.bind (getCalendarById p cid) fun ocal =>
    match ocal with
    | none => M.pure (errEnv ("Calendar with ID " ++ cid ++ " not found"))
    | some cal =>
      M.bind (M.call (.search eid) (cal.searchResult eid)) fun evs =>
        match evs with
        | [] => M.pure (errEnv ("Event with ID " ++ eid ++ " not found in calendar " ++ cid))
        | e :: _ => M.pure [("event", Val.rawEvent e)]

/-- `get_event_by_id`. -/
def get_event_by_id (s : ServerState) (cid eid : String) : Resp × List Eff :=
  match s.principal with
  | none => (errEnv "Not connected to CalDAV server", [])
  | some p =>
    match getEventByIdBody p cid eid with
    | (.ok r, t) => (r, t)
    | (.error e, t) => (errEnv ("Error retrieving event: " ++ e.msg), t)

/-- The `try` block of `get_events_in_range`; `strp` is the behaviour of
`datetime.strptime(_, "%Y%m%dT%H%M%S%z")`. -/
def getEventsInRangeBody (strp : String → Except Exc PyDateTime) (p : Principal)
    (cid startTime endTime : String) : M Resp :=
  M.bind (getCalendarById p cid) fun ocal =>
    match ocal with
    | none => M.pure (errEnv ("Calendar with ID " ++ cid ++ " not found"))
    | some cal =>
      M.bind (M.call (.strptime startTime) (strp startTime)) fun sdt =>
        M.bind (M.call (.strptime endTime) (strp endTime)) fun edt =>
          M.bind (M.call (.dateSearch sdt edt) (cal.dateSearchResult sdt edt)) fun evs =>
            M.pure [("events", Val.rawEvents evs), ("count", Val.num evs.length),
              ("start_time", Val.str startTime), ("end_time", Val.str endTime),
              ("calendar_id", Val.str cid)]

/-- `get_events_in_range`: a `ValueError` (the `strptime` failure mode) is
reported with its bare message, any other exception with a prefix. -/
def get_events_in_range (strp : String → Except Exc PyDateTime) (s : ServerState)
    (cid startTime endTime : String) : Resp × List Eff :=
  match s.principal with
  | none => (errEnv "Not connected to CalDAV server", [])
  | some p =>
    match getEventsInRangeBody strp p cid startTime endTime with
    | (.ok r, t) => (r, t)
    | (.error e, t) =>
      if e.isValueError then (errEnv e.msg, t)
      else (errEnv ("Error getting events in range: " ++ e.msg), t)

/-- The `try` block of `search_events`. -/
def searchEventsBody (p : Principal) (cid query : String) (limit : Nat) : M Resp :=
  M.bind (getCalendarById p cid) fun ocal =>
    match ocal with
    | none => M.pure (errEnv ("Calendar with ID " ++ cid ++ " not found"))
    | some cal =>
      M.bind (M.call .events cal.eventsResult) fun evs =>
        let result := ((sortDesc (scoredEvents query evs)).take limit).map fun x => x.2
        M.pure [("events", Val.rawEvents result), ("count", Val.num result.length),
          ("query", Val.str query), ("calendar_id", Val.str cid)]

/-- `search_events` (the `limit` parameter is modelled as a natural number;
`scored_events[:limit]` for a non-negative limit is `List.take`). -/
def search_events (s : ServerState) (cid query : String) (limit : Nat) : Resp × List Eff :=
  match s.principal with
  | none => (errEnv "Not connected to CalDAV server", [])
  | some p =>
    match searchEventsBody p cid query limit with
    | (.ok r, t) => (r, t)
    | (.error e, t) => (errEnv ("Error searching events: " ++ e.msg), t)

/-- The `try` block of `create_event`: resolve, validate the four required
fields in fixed order, build the payload, submit it, echo the input. -/
def createEventBody (p : Principal) (cid : String) (data : EventData) : M Resp :=
  M.bind (getCalendarById p cid) fun ocal =>
    match ocal with
    | none => M.pure (errEnv ("Calendar with ID " ++ cid ++ " not found"))
    | some cal =>
      match data.uid with
      | none => M.pure (errEnv "Missing required field: uid")
      | some u =>
        match data.summary with
        | none => M.pure (errEnv "Missing required field: summary")
        | some sm =>
          match data.start with
          | none => M.pure (errEnv "Missing required field: start")
          | some st =>
            match data.end_ with
            | none => M.pure (errEnv "Missing required field: end")
            | some en =>
              let payload : EventPayload :=
                ⟨u, st, en, sm, data.location.getD "", data.description.getD ""⟩
              M.bind (M.call (.addEvent payload) (cal.addEventResult payload)) fun _ =>
                M.pure [("event", Val.eventData data)]

/-- `create_event`. -/
def create_event (s : ServerState) (cid : String) (data : EventData) : Resp × List Eff :=
  match s.principal with
  | none => (errEnv "Not connected to CalDAV server", [])
  | some p =>
    match createEventBody p cid data with
    | (.ok r, t) => (r, t)
    | (.error e, t) =>
      if e.isValueError then (errEnv e.msg, t)
      else (errEnv ("Error creating event: " ++ e.msg), t)

/-- The `try` block of `delete_event`. -/
def deleteEventBody (p : Principal) (cid eid : String) : M Resp :=
  M.bind (getCalendarById p cid) fun ocal =>
    match ocal with
    | none => M.pure (errEnv ("Calendar with ID " ++ cid ++ " not found"))
    | some cal =>
      M.bind (M.call (.search eid) (cal.searchResult eid)) fun evs =>
        match evs with
        | [] => M.pure (errEnv ("Event with ID " ++ eid ++ " not found in calendar " ++ cid))
        | e :: _ =>
          M.bind (M.call (.delete e) e.deleteResult) fun _ =>
            M.pure [("message", Val.str ("Event " ++ eid ++ " deleted successfully"))]

/-- `delete_event`. -/
def delete_event (s : ServerState) (cid eid : String) : Resp × List Eff :=
  match s.principal with
  | none => (errEnv "Not connected to CalDAV server", [])
  | some p =>
    match deleteEventBody p cid eid with
    | (.ok r, t) => (r, t)
    | (.error e, t) => (errEnv ("Error deleting event: " ++ e.msg), t)

/-- The `try` block of `update_event`: resolve calendar, find the existing
event, delete it, overwrite `event_data["uid"]` with the supplied event id,
then delegate to the public `create_event` (which re-resolves the calendar
and handles its own failures). -/
def updateEventBody (s : ServerState) (p : Principal) (cid eid : String)
    (data : EventData) : M Resp :=
  M.bind (getCalendarById p cid) fun ocal =>
    match ocal with
    | none => M.pure (errEnv ("Calendar with ID " ++ cid ++ " not found"))
    | some cal =>
      M.bind (M.call (.search eid) (cal.searchResult eid)) fun evs =>
        match evs with
        | [] => M.pure (errEnv ("Event with ID " ++ eid ++ " not found in calendar " ++ cid))
        | e :: _ =>
          M.bind (M.call (.delete e) e.deleteResult) fun _ =>
            M.lift (create_event s cid { data with uid := some eid })

/-- `update_event`. -/
def update_event (s : ServerState) (cid eid : String) (data : EventData) :
    Resp × List Eff :=
  match s.principal with
  | none => (errEnv "Not connected to CalDAV server", [])
  | some p =>
    match updateEventBody s p cid eid data with
    | (.ok r, t) => (r, t)
    | (.error e, t) => (errEnv ("Error updating event: " ++ e.msg), t)

/-- `CalDAVClient.to_calendar_event` from `caldav_client.py`: accessing
`.get` on a missing component raises; `str(ical.get("UID"))` of an absent
UID is the string "None"; DTSTART/DTEND are reformatted with
`strftime("%Y%m%dT%H%M%S%z")`, defaulting to ""; LOCATION/DESCRIPTION
become `None` when absent or falsy (empty). -/
def parseComponent (ical : IcalComponent) : CalendarEvent :=
  { uid := match ical.uid with | some u => u | none => "None"
    summary := ical.summary.getD ""
    start := match ical.dtstart with | some dt => strftimeWire dt | none => ""
    end_ := match ical.dtend with | some dt => strftimeWire dt | none => ""
    location := match ical.location with
      | some l => if l = "" then none else some l
      | none => none
    description := match ical.description with
      | some d => if d = "" then none else some d
      | none => none }

def to_calendar_event (e : CalEvent) : Except Exc CalendarEvent :=
  match e.component with
  | none => .error ⟨false, "AttributeError: NoneType object has no attribute get"⟩
  | some ical => .ok (parseComponent ical)

namespace CalDAVClient

/-- `CalDAVClient.get_events`: the only code path that converts events
through the Event Model parser; it is not invoked by the MCP tool
operations. -/
def get_events (cal : Calendar) : Except Exc (List CalendarEvent) :=
  match cal.eventsResult with
  | .error e => .error e
  | .ok evs => evs.mapM to_calendar_event

end CalDAVClient

/-- A response is a well-formed envelope: either exactly the error
envelope, or a success envelope keyed by one of the success nouns. -/
def envelopeOk (r : Resp) : Bool :=
  match r with
  | [("error", Val.str _)] => true
  | ("calendars", _) :: _ => true
  | ("events", _) :: _ => true
  | ("event", _) :: _ => true
  | ("message", _) :: _ => true
  | _ => false

/-- The property claim C7 asserts of the tool-facade `get_events`, stated
from the spec's words: the events list in the success envelope consists of
normalized `CalendarEvent` records. -/
def getEventsNormalized (s : ServerState) (cid : String) : Prop :=
  ∃ ces : List CalendarEvent, (get_events s cid).1 = [("events", Val.events ces)]

/-- A response is an error envelope. -/
def isErrEnv (r : Resp) : Prop := ∃ m, r = errEnv m

/-- The behaviour claim C8 asserts of startup, stated from the spec's
words: with the given environment, construction still succeeds and yields a
session whose principal is unset. -/
def constructsUnconnectedSession (env : Env) : Prop :=
  ∃ s : ServerState, initServer env = .ok s ∧ s.principal = none

/-! Concrete sample worlds used to instantiate the universally quantified
theorems below on explicit inputs. -/

/-- The datetime 2023-01-01T10:00:00+00:00. -/
def dt2023 : PyDateTime := ⟨2023, 1, 1, 10, 0, 0, some 0⟩

def wCompA : IcalComponent :=
  { uid := some "a", summary := some "Team Meeting", description := some "general",
    location := none, dtstart := some dt2023, dtend := none }

def wEvA : CalEvent := { component := some wCompA, deleteResult := .ok () }

def wEvB : CalEvent :=
  { component := some
      { uid := some "b", summary := some "lunch", description := some "meeting with bob",
        location := none, dtstart := none, dtend := none },
    deleteResult := .ok () }

def wEvC : CalEvent :=
  { component := some
      { uid := some "c", summary := some "errands", description := some "nothing here",
        location := none, dtstart := none, dtend := none },
    deleteResult := .ok () }

def wEvD : CalEvent :=
  { component := some
      { uid := some "d", summary := some "MEETING 2", description := some "meeting again",
        location := none, dtstart := none, dtend := none },
    deleteResult := .ok () }

/-- The event the sample calendar reports for a search on id "ev1". -/
def wEvDel : CalEvent :=
  { component := some
      { uid := some "ev1", summary := some "old", description := none,
        location := none, dtstart := none, dtend := none },
    deleteResult := .ok () }

def wCal : Calendar :=
  { idAttr := some "cal1", hashStr := "140245", nameAttr := some "Main",
    eventsResult := .ok [wEvA, wEvB, wEvC, wEvD],
    searchResult := fun eid => if eid = "ev1" then .ok [wEvDel] else .ok [],
    dateSearchResult := fun _ _ => .ok [],
    addEventResult := fun _ => .ok () }

def wPrincipal : Principal := ⟨.ok [wCal]⟩

def wState : ServerState := ⟨some "url", some "user", some "pw", some wPrincipal⟩

/-- A session whose principal was never established. -/
def wUnconnected : ServerState := ⟨none, none, none, none⟩

def wData : EventData :=
  { uid := some "OTHER", summary := some "S", start := some "20250101T120000Z",
    end_ := some "20250101T130000Z", location := none, description := none }

def wDataNoSummary : EventData :=
  { uid := some "OTHER", summary := none, start := some "20250101T120000Z",
    end_ := some "20250101T130000Z", location := none, description := none }

/-- A startup environment with the URI setting absent, whose connect call
raises (the realistic behaviour of the caldav client given no URL). -/
def wEnvBad : Env :=
  { uri := none, username := some "u", password := some "p",
    connectResult := .error ⟨false, "Connection refused"⟩ }

/-! ## Reduction lemmas for the combinators and calendar resolution -/

theorem M.bind_ok {α β : Type} (a : α) (t : List Eff) (f : α → M β) :
    M.bind (.ok a, t) f = ((f a).1, t ++ (f a).2) := rfl

theorem M.bind_error {α β : Type} (e : Exc) (t : List Eff) (f : α → M β) :
    M.bind (.error e, t) f = (.error e, t) := rfl

theorem getCalendarById_ok (p : Principal) (cid : String) (cals : List Calendar)
    (h : p.calendarsResult = .ok cals) :
    getCalendarById p cid = (.ok (resolveCalendar cals cid), [Eff.calendars]) := by
  simp [getCalendarById, M.bind, M.call, M.pure, h]

theorem getCalendarById_error (p : Principal) (cid : String) (e : Exc)
    (h : p.calendarsResult = .error e) :
    getCalendarById p cid = (.error e, [Eff.calendars]) := by
  simp [getCalendarById, M.bind, M.call, M.pure, h]

theorem resolveCalendar_eq_none (cals : List Calendar) (cid : String)
    (h : ∀ c ∈ cals, calId c ≠ cid) : resolveCalendar cals cid = none := by
  simp only [resolveCalendar, List.find?_eq_none]
  intro c hc
  simpa using h c hc

theorem resolveCalendar_first (pre : List Calendar) (c : Calendar) (post : List Calendar)
    (cid : String) (hpre : ∀ c2 ∈ pre, calId c2 ≠ cid) (hc : calId c = cid) :
    resolveCalendar (pre ++ c :: post) cid = some c := by
  induction pre with
  | nil =>
    show List.find? (fun x => calId x == cid) (c :: post) = some c
    exact List.find?_cons_of_pos _ (by simp [hc])
  | cons d ds ih =>
    show List.find? (fun x => calId x == cid) (d :: (ds ++ c :: post)) = some c
    rw [List.find?_cons_of_neg _ (by simpa using hpre d (List.mem_cons_self d ds))]
    exact ih fun c2 h2 => hpre c2 (List.mem_cons_of_mem d h2)

/-! ## Claim theorems -/

/-- C9: parsing an upstream event whose DTSTART is the date-time
2023-01-01T10:00:00+00:00 through the Event Model parser yields a
`CalendarEvent` whose `start` equals the wire string "20230101T100000+0000",
symmetrically for DTEND and `end`, and an absent DTSTART or DTEND yields the
empty string. -/
theorem to_calendar_event_wire_format (e : CalEvent) (c : IcalComponent)
    (h : e.component = some c) :
    to_calendar_event e = .ok (parseComponent c) ∧
    (c.dtstart = some dt2023 → (parseComponent c).start = "20230101T100000+0000") ∧
    (c.dtstart = none → (parseComponent c).start = "") ∧
    (c.dtend = some dt2023 → (parseComponent c).end_ = "20230101T100000+0000") ∧
    (c.dtend = none → (parseComponent c).end_ = "") := by
  refine ⟨by simp [to_calendar_event, h], ?_, ?_, ?_, ?_⟩ <;>
    intro h1 <;> simp [parseComponent, h1] <;> decide

/-- Witness for C9 at a concrete event. -/
theorem to_calendar_event_wire_format_witness :
    to_calendar_event wEvA = .ok (parseComponent wCompA) ∧
    (wCompA.dtstart = some dt2023 → (parseComponent wCompA).start = "20230101T100000+0000") ∧
    (wCompA.dtstart = none → (parseComponent wCompA).start = "") ∧
    (wCompA.dtend = some dt2023 → (parseComponent wCompA).end_ = "20230101T100000+0000") ∧
    (wCompA.dtend = none → (parseComponent wCompA).end_ = "") :=
  to_calendar_event_wire_format wEvA wCompA rfl

/-- C10: `get_calendars` reports each calendar under
`getattr(calendar, "id", str(hash(calendar)))` — the same string
`_get_calendar_by_id` compares against — so, while the listing is
unchanged, every reported id resolves back to a calendar with that id,
including calendars without an `id` attribute. -/
theorem get_calendars_ids_resolve (s : ServerState) (p : Principal) (cals : List Calendar)
    (h1 : s.principal = some p) (h2 : p.calendarsResult = .ok cals) :
    get_calendars s =
      ([("calendars", Val.calendars (cals.map fun c => ⟨calName c, calId c⟩))],
        [Eff.calendars]) ∧
    ∀ entry ∈ cals.map (fun c => (⟨calName c, calId c⟩ : CalendarEntry)),
      ∃ c, resolveCalendar cals entry.id = some c ∧ calId c = entry.id := by
  constructor
  · simp [get_calendars, h1, h2, M.bind, M.call, M.pure]
  · intro entry hentry
    obtain ⟨c0, hc0, hmap⟩ := List.mem_map.1 hentry
    have hid : entry.id = calId c0 := by rw [← hmap]
    have hsome : (cals.find? fun c => calId c == entry.id).isSome := by
      rw [List.find?_isSome]
      exact ⟨c0, hc0, by simp [hid]⟩
    obtain ⟨c, hc⟩ := Option.isSome_iff_exists.1 hsome
    refine ⟨c, hc, ?_⟩
    simpa using List.find?_some hc

/-- Witness for C10: in the sample world the single reported id "cal1"
resolves back to the sample calendar. -/
theorem get_calendars_ids_resolve_witness :
    get_calendars wState =
      ([("calendars", Val.calendars ([wCal].map fun c => ⟨calName c, calId c⟩))],
        [Eff.calendars]) ∧
    ∀ entry ∈ [wCal].map (fun c => (⟨calName c, calId c⟩ : CalendarEntry)),
      ∃ c, resolveCalendar [wCal] entry.id = some c ∧ calId c = entry.id :=
  get_calendars_ids_resolve wState wPrincipal [wCal] rfl rfl

/-- C8 counterexample: with the calendar-service URI setting absent and the
connect call raising, `__init__` propagates the exception — the server does
not construct an unconnected session, it fails at startup. -/
theorem startup_counterexample :
    initServer wEnvBad = .error ⟨false, "Connection refused"⟩ ∧
    ¬ constructsUnconnectedSession wEnvBad := by
  constructor
  · rfl
  · rintro ⟨s, hs, -⟩
    simp [initServer, wEnvBad] at hs

/-- C8 (amended): `__init__` calls `_connect` unconditionally and
propagates its exception, so a failing connect (the realistic outcome when
a configuration setting is absent) makes construction itself fail; the
per-operation "Not connected" guard fires only on a session whose principal
is unset, and then every tool operation returns the error envelope without
any external call. -/
theorem startup_and_unconnected_guard (env : Env) (e : Exc) (s : ServerState)
    (strp : String → Except Exc PyDateTime)
    (cid eid q st en : String) (limit : Nat) (data : EventData)
    (henv : env.connectResult = .error e) (hs : s.principal = none) :
    initServer env = .error e ∧
    get_calendars s = (errEnv "Not connected to CalDAV server", []) ∧
    get_events s cid = (errEnv "Not connected to CalDAV server", []) ∧
    get_event_by_id s cid eid = (errEnv "Not connected to CalDAV server", []) ∧
    get_events_in_range strp s cid st en = (errEnv "Not connected to CalDAV server", []) ∧
    search_events s cid q limit = (errEnv "Not connected to CalDAV server", []) ∧
    create_event s cid data = (errEnv "Not connected to CalDAV server", []) ∧
    delete_event s cid eid = (errEnv "Not connected to CalDAV server", []) ∧
    update_event s cid eid data = (errEnv "Not connected to CalDAV server", []) := by
  refine ⟨?_, ?_, ?_, ?_, ?_, ?_, ?_, ?_, ?_⟩ <;>
    simp [initServer, henv, hs, get_calendars, get_events, get_event_by_id,
      get_events_in_range, search_events, create_event, delete_event, update_event]

/-- Witness for the amended C8 at a concrete environment and session. -/
theorem startup_and_unconnected_guard_witness :
    initServer wEnvBad = .error ⟨false, "Connection refused"⟩ ∧
    get_calendars wUnconnected = (errEnv "Not connected to CalDAV server", []) ∧
    get_events wUnconnected "cal1" = (errEnv "Not connected to CalDAV server", []) ∧
    get_event_by_id wUnconnected "cal1" "ev1" = (errEnv "Not connected to CalDAV server", []) ∧
    get_events_in_range (fun _ => .error ⟨true, "bad"⟩) wUnconnected "cal1" "a" "b" =
      (errEnv "Not connected to CalDAV server", []) ∧
    search_events wUnconnected "cal1" "q" 10 = (errEnv "Not connected to CalDAV server", []) ∧
    create_event wUnconnected "cal1" wData = (errEnv "Not connected to CalDAV server", []) ∧
    delete_event wUnconnected "cal1" "ev1" = (errEnv "Not connected to CalDAV server", []) ∧
    update_event wUnconnected "cal1" "ev1" wData =
      (errEnv "Not connected to CalDAV server", []) :=
  startup_and_unconnected_guard wEnvBad ⟨false, "Connection refused"⟩ wUnconnected
    (fun _ => .error ⟨true, "bad"⟩) "cal1" "ev1" "q" "a" "b" 10 wData rfl rfl

/-! ## Envelope-shape lemmas, one per tool operation (used by C6) -/

theorem envOk_get_calendars (s : ServerState) :
    envelopeOk (get_calendars s).1 = true := by
  dsimp only [get_calendars, M.bind, M.call, M.pure]
  cases hp : s.principal with
  | none => rfl
  | some p =>
    dsimp only
    cases hc : p.calendarsResult with
    | error e => rfl
    | ok cals => rfl

theorem envOk_get_events (s : ServerState) (cid : String) :
    envelopeOk (get_events s cid).1 = true := by
  dsimp only [get_events, getEventsBody, getCalendarById, M.bind, M.call, M.pure]
  cases hp : s.principal with
  | none => rfl
  | some p =>
    dsimp only
    cases hc : p.calendarsResult with
    | error e => rfl
    | ok cals =>
      dsimp only
      cases hr : resolveCalendar cals cid with
      | none => rfl
      | some cal =>
        dsimp only
        cases he : cal.eventsResult with
        | error e => rfl
        | ok evs => rfl

theorem envOk_get_event_by_id (s : ServerState) (cid eid : String) :
    envelopeOk (get_event_by_id s cid eid).1 = true := by
  dsimp only [get_event_by_id, getEventByIdBody, getCalendarById, M.bind, M.call, M.pure]
  cases hp : s.principal with
  | none => rfl
  | some p =>
    dsimp only
    cases hc : p.calendarsResult with
    | error e => rfl
    | ok cals =>
      dsimp only
      cases hr : resolveCalendar cals cid with
      | none => rfl
      | some cal =>
        dsimp only
        cases hse : cal.searchResult eid with
        | error e => rfl
        | ok evs =>
          dsimp only
          cases evs with
          | nil => rfl
          | cons e es => rfl

theorem envOk_get_events_in_range (strp : String → Except Exc PyDateTime)
    (s : ServerState) (cid st en : String) :
    envelopeOk (get_events_in_range strp s cid st en).1 = true := by
  dsimp only [get_events_in_range, getEventsInRangeBody, getCalendarById,
    M.bind, M.call, M.pure]
  cases hp : s.principal with
  | none => rfl
  | some p =>
    dsimp only
    cases hc : p.calendarsResult with
    | error e => dsimp only; cases e.isValueError <;> rfl
    | ok cals =>
      dsimp only
      cases hr : resolveCalendar cals cid with
      | none => rfl
      | some cal =>
        dsimp only
        cases h1 : strp st with
        | error e => dsimp only; cases e.isValueError <;> rfl
        | ok sdt =>
          dsimp only
          cases h2 : strp en with
          | error e => dsimp only; cases e.isValueError <;> rfl
          | ok edt =>
            dsimp only
            cases h3 : cal.dateSearchResult sdt edt with
            | error e => dsimp only; cases e.isValueError <;> rfl
            | ok evs => rfl

theorem envOk_search_events (s : ServerState) (cid q : String) (limit : Nat) :
    envelopeOk (search_events s cid q limit).1 = true := by
  dsimp only [search_events, searchEventsBody, getCalendarById, M.bind, M.call, M.pure]
  cases hp : s.principal with
  | none => rfl
  | some p =>
    dsimp only
    cases hc : p.calendarsResult with
    | error e => rfl
    | ok cals =>
      dsimp only
      cases hr : resolveCalendar cals cid with
      | none => rfl
      | some cal =>
        dsimp only
        cases he : cal.eventsResult with
        | error e => rfl
        | ok evs => rfl

theorem envOk_create_event (s : ServerState) (cid : String) (data : EventData) :
    envelopeOk (create_event s cid data).1 = true := by
  dsimp only [create_event, createEventBody, getCalendarById, M.bind, M.call, M.pure]
  cases hp : s.principal with
  | none => rfl
  | some p =>
    dsimp only
    cases hc : p.calendarsResult with
    | error e => dsimp only; cases e.isValueError <;> rfl
    | ok cals =>
      dsimp only
      cases hr : resolveCalendar cals cid with
      | none => rfl
      | some cal =>
        dsimp only
        cases hu : data.uid with
        | none => rfl
        | some u =>
          dsimp only
          cases hsm : data.summary with
          | none => rfl
          | some sm =>
            dsimp only
            cases hst : data.start with
            | none => rfl
            | some st =>
              dsimp only
              cases hen : data.end_ with
              | none => rfl
              | some en =>
                dsimp only
                cases ha : cal.addEventResult
                  ⟨u, st, en, sm, data.location.getD "", data.description.getD ""⟩ with
                | error e => dsimp only; cases e.isValueError <;> rfl
                | ok u2 => rfl

theorem envOk_delete_event (s : ServerState) (cid eid : String) :
    envelopeOk (delete_event s cid eid).1 = true := by
  dsimp only [delete_event, deleteEventBody, getCalendarById, M.bind, M.call, M.pure]
  cases hp : s.principal with
  | none => rfl
  | some p =>
    dsimp only
    cases hc : p.calendarsResult with
    | error e => rfl
    | ok cals =>
      dsimp only
      cases hr : resolveCalendar cals cid with
      | none => rfl
      | some cal =>
        dsimp only
        cases hse : cal.searchResult eid with
        | error e => rfl
        | ok evs =>
          dsimp only
          cases evs with
          | nil => rfl
          | cons e es =>
            dsimp only
            cases hd : e.deleteResult with
            | error e2 => rfl
            | ok u2 => rfl

theorem envOk_update_event (s : ServerState) (cid eid : String) (data : EventData) :
    envelopeOk (update_event s cid eid data).1 = true := by
  dsimp only [update_event, updateEventBody, getCalendarById, M.bind, M.call, M.pure, M.lift]
  cases hp : s.principal with
  | none => rfl
  | some p =>
    dsimp only
    cases hc : p.calendarsResult with
    | error e => rfl
    | ok cals =>
      dsimp only
      cases hr : resolveCalendar cals cid with
      | none => rfl
      | some cal =>
        dsimp only
        cases hse : cal.searchResult eid with
        | error e => rfl
        | ok evs =>
          dsimp only
          cases evs with
          | nil => rfl
          | cons e es =>
            dsimp only
            cases hd : e.deleteResult with
            | error e2 => rfl
            | ok u2 =>
              dsimp only
              exact envOk_create_event s cid { data with uid := some eid }

/-- C6: every public tool operation, on every input and world, returns
either a success envelope keyed by calendars/events/event/message or an
error envelope; no raised exception escapes the operation. -/
theorem tool_operations_return_envelopes (strp : String → Except Exc PyDateTime)
    (s : ServerState) (cid eid q st en : String) (limit : Nat) (data : EventData) :
    envelopeOk (get_calendars s).1 = true ∧
    envelopeOk (get_events s cid).1 = true ∧
    envelopeOk (get_event_by_id s cid eid).1 = true ∧
    envelopeOk (get_events_in_range strp s cid st en).1 = true ∧
    envelopeOk (search_events s cid q limit).1 = true ∧
    envelopeOk (create_event s cid data).1 = true ∧
    envelopeOk (delete_event s cid eid).1 = true ∧
    envelopeOk (update_event s cid eid data).1 = true :=
  ⟨envOk_get_calendars s, envOk_get_events s cid, envOk_get_event_by_id s cid eid,
    envOk_get_events_in_range strp s cid st en, envOk_search_events s cid q limit,
    envOk_create_event s cid data, envOk_delete_event s cid eid,
    envOk_update_event s cid eid data⟩


/-- C4: every event operation first resolves the calendar id to the first
listing entry with that id; when no calendar matches, it returns the
"Calendar with ID … not found" error having performed only the calendar
listing — no event access, parsing, validation, or mutation. -/
theorem calendar_resolution_guard
    (strp : String → Except Exc PyDateTime)
    (s : ServerState) (p : Principal) (cals : List Calendar)
    (cid eid q st en : String) (limit : Nat) (data : EventData)
    (h1 : s.principal = some p) (h2 : p.calendarsResult = .ok cals) :
    ((∀ c ∈ cals, calId c ≠ cid) →
      get_events s cid =
        (errEnv ("Calendar with ID " ++ cid ++ " not found"), [Eff.calendars]) ∧
      get_event_by_id s cid eid =
        (errEnv ("Calendar with ID " ++ cid ++ " not found"), [Eff.calendars]) ∧
      get_events_in_range strp s cid st en =
        (errEnv ("Calendar with ID " ++ cid ++ " not found"), [Eff.calendars]) ∧
      search_events s cid q limit =
        (errEnv ("Calendar with ID " ++ cid ++ " not found"), [Eff.calendars]) ∧
      create_event s cid data =
        (errEnv ("Calendar with ID " ++ cid ++ " not found"), [Eff.calendars]) ∧
      delete_event s cid eid =
        (errEnv ("Calendar with ID " ++ cid ++ " not found"), [Eff.calendars]) ∧
      update_event s cid eid data =
        (errEnv ("Calendar with ID " ++ cid ++ " not found"), [Eff.calendars])) ∧
    (∀ pre c post, cals = pre ++ c :: post → (∀ c2 ∈ pre, calId c2 ≠ cid) →
      calId c = cid → resolveCalendar cals cid = some c) := by
  constructor
  · intro hno
    have hnone : resolveCalendar cals cid = none := resolveCalendar_eq_none cals cid hno
    refine ⟨?_, ?_, ?_, ?_, ?_, ?_, ?_⟩ <;>
      simp [get_events, get_event_by_id, get_events_in_range, search_events, create_event,
        delete_event, update_event, getEventsBody, getEventByIdBody, getEventsInRangeBody,
        searchEventsBody, createEventBody, deleteEventBody, updateEventBody,
        getCalendarById_ok p cid cals h2, M.bind_ok, M.pure, h1, hnone]
  · intro pre c post hcals hpre hc
    rw [hcals]
    exact resolveCalendar_first pre c post cid hpre hc

/-- Witness for C4: the sample listing has no calendar with id "missing". -/
theorem calendar_resolution_guard_witness :
    ((∀ c ∈ [wCal], calId c ≠ "missing") →
      get_events wState "missing" =
        (errEnv ("Calendar with ID " ++ "missing" ++ " not found"), [Eff.calendars]) ∧
      get_event_by_id wState "missing" "ev1" =
        (errEnv ("Calendar with ID " ++ "missing" ++ " not found"), [Eff.calendars]) ∧
      get_events_in_range (fun _ => .error ⟨true, "bad"⟩) wState "missing" "a" "b" =
        (errEnv ("Calendar with ID " ++ "missing" ++ " not found"), [Eff.calendars]) ∧
      search_events wState "missing" "q" 10 =
        (errEnv ("Calendar with ID " ++ "missing" ++ " not found"), [Eff.calendars]) ∧
      create_event wState "missing" wData =
        (errEnv ("Calendar with ID " ++ "missing" ++ " not found"), [Eff.calendars]) ∧
      delete_event wState "missing" "ev1" =
        (errEnv ("Calendar with ID " ++ "missing" ++ " not found"), [Eff.calendars]) ∧
      update_event wState "missing" "ev1" wData =
        (errEnv ("Calendar with ID " ++ "missing" ++ " not found"), [Eff.calendars])) ∧
    (∀ pre c post, [wCal] = pre ++ c :: post → (∀ c2 ∈ pre, calId c2 ≠ "missing") →
      calId c = "missing" → resolveCalendar [wCal] "missing" = some c) :=
  calendar_resolution_guard (fun _ => .error ⟨true, "bad"⟩) wState wPrincipal [wCal]
    "missing" "ev1" "q" "a" "b" 10 wData rfl rfl

/-- C5: with the calendar resolved, `create_event` reports the first
missing required field in the fixed order uid, summary, start, end while
submitting nothing, and on a successful submission echoes the submitted
`event_data` back. -/
theorem create_event_validation (s : ServerState) (p : Principal) (cals : List Calendar)
    (cal : Calendar) (cid : String) (data : EventData)
    (h1 : s.principal = some p) (h2 : p.calendarsResult = .ok cals)
    (h3 : resolveCalendar cals cid = some cal) :
    (data.uid = none →
      create_event s cid data = (errEnv "Missing required field: uid", [Eff.calendars])) ∧
    (∀ u, data.uid = some u → data.summary = none →
      create_event s cid data = (errEnv "Missing required field: summary", [Eff.calendars])) ∧
    (∀ u sm, data.uid = some u → data.summary = some sm → data.start = none →
      create_event s cid data = (errEnv "Missing required field: start", [Eff.calendars])) ∧
    (∀ u sm sv, data.uid = some u → data.summary = some sm → data.start = some sv →
      data.end_ = none →
      create_event s cid data = (errEnv "Missing required field: end", [Eff.calendars])) ∧
    (∀ u sm sv ev, data.uid = some u → data.summary = some sm → data.start = some sv →
      data.end_ = some ev →
      cal.addEventResult ⟨u, sv, ev, sm, data.location.getD "", data.description.getD ""⟩ =
        .ok () →
      create_event s cid data =
        ([("event", Val.eventData data)],
          [Eff.calendars,
            Eff.addEvent ⟨u, sv, ev, sm, data.location.getD "", data.description.getD ""⟩])) := by
  refine ⟨?_, ?_, ?_, ?_, ?_⟩
  · intro hu
    simp [create_event, createEventBody, h1, getCalendarById_ok p cid cals h2,
      M.bind_ok, M.call, M.pure, h3, hu]
  · intro u hu hsm
    simp [create_event, createEventBody, h1, getCalendarById_ok p cid cals h2,
      M.bind_ok, M.call, M.pure, h3, hu, hsm]
  · intro u sm hu hsm hst
    simp [create_event, createEventBody, h1, getCalendarById_ok p cid cals h2,
      M.bind_ok, M.call, M.pure, h3, hu, hsm, hst]
  · intro u sm sv hu hsm hst hen
    simp [create_event, createEventBody, h1, getCalendarById_ok p cid cals h2,
      M.bind_ok, M.call, M.pure, h3, hu, hsm, hst, hen]
  · intro u sm sv ev hu hsm hst hen hadd
    simp [create_event, createEventBody, h1, getCalendarById_ok p cid cals h2,
      M.bind_ok, M.call, M.pure, h3, hu, hsm, hst, hen, hadd]

/-- Witness for C5 at the sample calendar, exercising the
missing-summary branch. -/
theorem create_event_validation_witness :
    (wDataNoSummary.uid = none →
      create_event wState "cal1" wDataNoSummary =
        (errEnv "Missing required field: uid", [Eff.calendars])) ∧
    (∀ u, wDataNoSummary.uid = some u → wDataNoSummary.summary = none →
      create_event wState "cal1" wDataNoSummary =
        (errEnv "Missing required field: summary", [Eff.calendars])) ∧
    (∀ u sm, wDataNoSummary.uid = some u → wDataNoSummary.summary = some sm →
      wDataNoSummary.start = none →
      create_event wState "cal1" wDataNoSummary =
        (errEnv "Missing required field: start", [Eff.calendars])) ∧
    (∀ u sm sv, wDataNoSummary.uid = some u → wDataNoSummary.summary = some sm →
      wDataNoSummary.start = some sv → wDataNoSummary.end_ = none →
      create_event wState "cal1" wDataNoSummary =
        (errEnv "Missing required field: end", [Eff.calendars])) ∧
    (∀ u sm sv ev, wDataNoSummary.uid = some u → wDataNoSummary.summary = some sm →
      wDataNoSummary.start = some sv → wDataNoSummary.end_ = some ev →
      wCal.addEventResult
          ⟨u, sv, ev, sm, wDataNoSummary.location.getD "", wDataNoSummary.description.getD ""⟩ =
        .ok () →
      create_event wState "cal1" wDataNoSummary =
        ([("event", Val.eventData wDataNoSummary)],
          [Eff.calendars,
            Eff.addEvent ⟨u, sv, ev, sm, wDataNoSummary.location.getD "",
              wDataNoSummary.description.getD ""⟩])) :=
  create_event_validation wState wPrincipal [wCal] wCal "cal1" wDataNoSummary rfl rfl rfl

/-- Whatever the world, every payload `create_event` submits carries the
uid found in `event_data`, and a success echo returns `event_data` itself. -/
theorem create_event_submits_uid (s : ServerState) (cid : String) (data : EventData)
    (x : String) (hx : data.uid = some x) :
    (∀ pl, Eff.addEvent pl ∈ (create_event s cid data).2 → pl.uid = x) ∧
    (∀ d, (create_event s cid data).1 = [("event", Val.eventData d)] → d = data) := by
  dsimp only [create_event, createEventBody, getCalendarById, M.bind, M.call, M.pure]
  cases hp : s.principal with
  | none => exact ⟨fun pl h => by simp at h, fun d h => by simp [errEnv] at h⟩
  | some p =>
    dsimp only
    cases hc : p.calendarsResult with
    | error e =>
      dsimp only
      cases e.isValueError <;>
        exact ⟨fun pl h => by simp at h, fun d h => by simp [errEnv] at h⟩
    | ok cals =>
      dsimp only
      cases hr : resolveCalendar cals cid with
      | none => exact ⟨fun pl h => by simp at h, fun d h => by simp [errEnv] at h⟩
      | some cal =>
        dsimp only
        rw [hx]
        dsimp only
        cases hsm : data.summary with
        | none => exact ⟨fun pl h => by simp at h, fun d h => by simp [errEnv] at h⟩
        | some sm =>
          dsimp only
          cases hst : data.start with
          | none => exact ⟨fun pl h => by simp at h, fun d h => by simp [errEnv] at h⟩
          | some st =>
            dsimp only
            cases hen : data.end_ with
            | none => exact ⟨fun pl h => by simp at h, fun d h => by simp [errEnv] at h⟩
            | some en =>
              dsimp only
              cases ha : cal.addEventResult
                  ⟨x, st, en, sm, data.location.getD "", data.description.getD ""⟩ with
              | error e =>
                dsimp only
                cases e.isValueError <;>
                  exact ⟨fun pl h => by simp at h; subst h; rfl,
                    fun d h => by simp [errEnv] at h⟩
              | ok u2 =>
                dsimp only
                refine ⟨fun pl h => ?_, fun d h => ?_⟩
                · simp at h
                  subst h
                  rfl
                · simp at h
                  exact h.symm

/-- With the calendar resolved, the event found, and its delete succeeding,
`update_event` runs the delete and then delegates to `create_event` on
`event_data` with its uid overwritten by the supplied event id. -/
theorem update_event_run (s : ServerState) (p : Principal) (cals : List Calendar)
    (cal : Calendar) (cid eid : String) (data : EventData) (e : CalEvent)
    (rest : List CalEvent)
    (h1 : s.principal = some p) (h2 : p.calendarsResult = .ok cals)
    (h3 : resolveCalendar cals cid = some cal)
    (h4 : cal.searchResult eid = .ok (e :: rest)) (h5 : e.deleteResult = .ok ()) :
    update_event s cid eid data =
      ((create_event s cid { data with uid := some eid }).1,
        Eff.calendars :: Eff.search eid :: Eff.delete e ::
          (create_event s cid { data with uid := some eid }).2) := by
  simp [update_event, updateEventBody, h1, getCalendarById_ok p cid cals h2,
    M.bind_ok, M.call, M.pure, M.lift, h3, h4, h5]

/-- C2: whenever the calendar and the existing event resolve, every payload
`update_event` submits has uid equal to the supplied event id, and a
success echo carries that uid, regardless of the uid in `event_data`. -/
theorem update_event_forces_uid (s : ServerState) (p : Principal) (cals : List Calendar)
    (cal : Calendar) (cid eid : String) (data : EventData) (e : CalEvent)
    (rest : List CalEvent)
    (h1 : s.principal = some p) (h2 : p.calendarsResult = .ok cals)
    (h3 : resolveCalendar cals cid = some cal)
    (h4 : cal.searchResult eid = .ok (e :: rest)) (h5 : e.deleteResult = .ok ()) :
    (∀ pl, Eff.addEvent pl ∈ (update_event s cid eid data).2 → pl.uid = eid) ∧
    (∀ d, (update_event s cid eid data).1 = [("event", Val.eventData d)] →
      d.uid = some eid) := by
  have hup := update_event_run s p cals cal cid eid data e rest h1 h2 h3 h4 h5
  have hcr := create_event_submits_uid s cid { data with uid := some eid } eid rfl
  constructor
  · intro pl hmem
    rw [hup] at hmem
    simp at hmem
    exact hcr.1 pl hmem
  · intro d hd
    rw [hup] at hd
    have hde := hcr.2 d hd
    subst hde
    rfl

/-- Witness for C2 at the sample world, with a caller-supplied uid "OTHER"
differing from the event id "ev1". -/
theorem update_event_forces_uid_witness :
    (∀ pl, Eff.addEvent pl ∈ (update_event wState "cal1" "ev1" wData).2 → pl.uid = "ev1") ∧
    (∀ d, (update_event wState "cal1" "ev1" wData).1 = [("event", Val.eventData d)] →
      d.uid = some "ev1") :=
  update_event_forces_uid wState wPrincipal [wCal] wCal "cal1" "ev1" wData wEvDel []
    rfl rfl rfl rfl rfl

/-- C3: when the delete step has succeeded but the subsequent create step
fails, `update_event` returns exactly the create step error envelope —
never a success envelope — although the delete of the original event has
already been performed. -/
theorem update_event_error_after_delete (s : ServerState) (p : Principal)
    (cals : List Calendar) (cal : Calendar) (cid eid : String) (data : EventData)
    (e : CalEvent) (rest : List CalEvent)
    (h1 : s.principal = some p) (h2 : p.calendarsResult = .ok cals)
    (h3 : resolveCalendar cals cid = some cal)
    (h4 : cal.searchResult eid = .ok (e :: rest)) (h5 : e.deleteResult = .ok ())
    (hErr : isErrEnv (create_event s cid { data with uid := some eid }).1) :
    (update_event s cid eid data).1 =
      (create_event s cid { data with uid := some eid }).1 ∧
    isErrEnv (update_event s cid eid data).1 ∧
    Eff.delete e ∈ (update_event s cid eid data).2 := by
  have hup := update_event_run s p cals cal cid eid data e rest h1 h2 h3 h4 h5
  rw [hup]
  exact ⟨rfl, hErr, by simp⟩

/-- Witness for C3: the create step fails on a missing summary after the
delete succeeded. -/
theorem update_event_error_after_delete_witness :
    (update_event wState "cal1" "ev1" wDataNoSummary).1 =
      (create_event wState "cal1" { wDataNoSummary with uid := some "ev1" }).1 ∧
    isErrEnv (update_event wState "cal1" "ev1" wDataNoSummary).1 ∧
    Eff.delete wEvDel ∈ (update_event wState "cal1" "ev1" wDataNoSummary).2 :=
  update_event_error_after_delete wState wPrincipal [wCal] wCal "cal1" "ev1"
    wDataNoSummary wEvDel [] rfl rfl rfl rfl rfl
    ⟨"Missing required field: summary", by rfl⟩

/-! ## Search scoring and stable descending sort (C1) -/

theorem score_le_three (q : String) (c : IcalComponent) : score q c ≤ 3 := by
  unfold score
  cases pyContains (lowerStr (c.summary.getD "")) (lowerStr q) <;>
    cases pyContains (lowerStr (c.description.getD "")) (lowerStr q) <;> simp

theorem eventScore_le_three (q : String) (e : CalEvent) : eventScore q e ≤ 3 := by
  cases hc : e.component with
  | none => simp [eventScore, hc]
  | some c => simp [eventScore, hc, score_le_three q c]

theorem insertDesc_front (p : Nat × CalEvent) (l : List (Nat × CalEvent))
    (h : ∀ x ∈ l, x.1 ≤ p.1) : insertDesc p l = p :: l := by
  cases l with
  | nil => rfl
  | cons x xs =>
    simp only [insertDesc]
    rw [if_pos (h x (List.mem_cons_self x xs))]

theorem insertDesc_skip (p : Nat × CalEvent) (l1 l2 : List (Nat × CalEvent))
    (h : ∀ x ∈ l1, p.1 < x.1) :
    insertDesc p (l1 ++ l2) = l1 ++ insertDesc p l2 := by
  induction l1 with
  | nil => rfl
  | cons x xs ih =>
    have hx : p.1 < x.1 := h x (List.mem_cons_self x xs)
    simp only [List.cons_append, insertDesc, List.append_eq]
    rw [if_neg (by omega), ih fun r hr => h r (List.mem_cons_of_mem x hr)]

/-- A stable descending sort of a list whose keys lie in {1, 2, 3} is the
key-3 elements, then the key-2 elements, then the key-1 elements, each in
their original order. -/
theorem sortDesc_buckets (l : List (Nat × CalEvent))
    (h : ∀ x ∈ l, x.1 = 1 ∨ x.1 = 2 ∨ x.1 = 3) :
    sortDesc l = (l.filter fun x => x.1 == 3) ++ (l.filter fun x => x.1 == 2) ++
      (l.filter fun x => x.1 == 1) := by
  induction l with
  | nil => rfl
  | cons p ps ih =>
    have hp := h p (List.mem_cons_self p ps)
    have hps : ∀ x ∈ ps, x.1 = 1 ∨ x.1 = 2 ∨ x.1 = 3 :=
      fun x hx => h x (List.mem_cons_of_mem p hx)
    have key3 : ∀ x ∈ ps.filter (fun x => x.1 == 3), x.1 = 3 :=
      fun x hx => by simpa using (List.mem_filter.1 hx).2
    have key2 : ∀ x ∈ ps.filter (fun x => x.1 == 2), x.1 = 2 :=
      fun x hx => by simpa using (List.mem_filter.1 hx).2
    have key1 : ∀ x ∈ ps.filter (fun x => x.1 == 1), x.1 = 1 :=
      fun x hx => by simpa using (List.mem_filter.1 hx).2
    simp only [sortDesc, ih hps]
    rcases hp with h1 | h2 | h3
    · rw [insertDesc_skip p _ _ (by
        intro x hx
        rcases List.mem_append.1 hx with hx3 | hx2
        · have := key3 x hx3; omega
        · have := key2 x hx2; omega)]
      rw [insertDesc_front p _ (by intro x hx; have := key1 x hx; omega)]
      simp [List.filter_cons, h1]
    · rw [List.append_assoc]
      rw [insertDesc_skip p _ _ (by intro x hx; have := key3 x hx; omega)]
      rw [insertDesc_front p _ (by
        intro x hx
        rcases List.mem_append.1 hx with hx2 | hx1
        · have := key2 x hx2; omega
        · have := key1 x hx1; omega)]
      simp [List.filter_cons, h2]
    · rw [insertDesc_front p _ (by
        intro x hx
        rcases List.mem_append.1 hx with hx32 | hx1
        · rcases List.mem_append.1 hx32 with hx3 | hx2
          · have := key3 x hx3; omega
          · have := key2 x hx2; omega
        · have := key1 x hx1; omega)]
      simp [List.filter_cons, h3]

/-- With every event exposing a component, the `scored_events` loop is a
filter of the positive-score events paired with their scores. -/
theorem scoredEvents_eq (q : String) (evs : List CalEvent)
    (h : ∀ e ∈ evs, e.component ≠ none) :
    scoredEvents q evs =
      (evs.filter fun e => decide (0 < eventScore q e)).map fun e => (eventScore q e, e) := by
  induction evs with
  | nil => rfl
  | cons e es ih =>
    have he := h e (List.mem_cons_self e es)
    have hes : ∀ x ∈ es, x.component ≠ none := fun x hx => h x (List.mem_cons_of_mem e hx)
    cases hc : e.component with
    | none => exact absurd hc he
    | some c =>
      have hev : eventScore q e = score q c := by simp [eventScore, hc]
      rcases Nat.eq_zero_or_pos (score q c) with hz | hpos
      · have htail := ih hes
        simp only [scoredEvents] at htail
        simp [scoredEvents, List.filterMap_cons, List.filter_cons, hc, hev, hz, htail]
      · have htail := ih hes
        simp only [scoredEvents] at htail
        simp [scoredEvents, List.filterMap_cons, List.filter_cons, hc, hev, hpos, htail]

theorem filter_score_pos (q : String) (evs : List CalEvent) (k : Nat) (hk : 0 < k) :
    ((evs.filter fun e => decide (0 < eventScore q e)).filter fun e => eventScore q e == k) =
      evs.filter fun e => eventScore q e == k := by
  rw [List.filter_filter]
  apply List.filter_congr
  intro e he
  cases hke : (eventScore q e == k) with
  | false => simp [hke]
  | true =>
    have hv : eventScore q e = k := by simpa using hke
    simp [hke, hv, hk]

/-- Stripping the scores from one score bucket of the scored list recovers
the corresponding filter of the event list. -/
theorem bucket_map (q : String) (k : Nat) (P : List CalEvent) :
    (((P.map fun e => (eventScore q e, e)).filter fun x => x.1 == k).map fun x => x.2) =
      P.filter fun e => eventScore q e == k := by
  induction P with
  | nil => rfl
  | cons e es ih =>
    simp only [List.map_cons, List.filter_cons]
    cases hk : (eventScore q e == k) with
    | false => simpa [hk] using ih
    | true => simpa [hk] using ih

/-- The full search pipeline (score, drop zero scores, stable descending
sort, strip scores) equals the three score buckets in listing order. -/
theorem searchResult_buckets (q : String) (evs : List CalEvent)
    (h : ∀ e ∈ evs, e.component ≠ none) :
    (sortDesc (scoredEvents q evs)).map (fun x => x.2) =
      (evs.filter fun e => eventScore q e == 3) ++
        (evs.filter fun e => eventScore q e == 2) ++
        (evs.filter fun e => eventScore q e == 1) := by
  have hkeys : ∀ x ∈ scoredEvents q evs, x.1 = 1 ∨ x.1 = 2 ∨ x.1 = 3 := by
    intro x hx
    rw [scoredEvents_eq q evs h] at hx
    obtain ⟨e, he, rfl⟩ := List.mem_map.1 hx
    have hpos : 0 < eventScore q e := by simpa using (List.mem_filter.1 he).2
    have hle : eventScore q e ≤ 3 := eventScore_le_three q e
    show eventScore q e = 1 ∨ eventScore q e = 2 ∨ eventScore q e = 3
    omega
  rw [sortDesc_buckets _ hkeys, scoredEvents_eq q evs h]
  simp only [List.map_append]
  rw [bucket_map q 3 _, bucket_map q 2 _, bucket_map q 1 _]
  rw [filter_score_pos q evs 3 (by omega), filter_score_pos q evs 2 (by omega),
    filter_score_pos q evs 1 (by omega)]

/-- C1: on a calendar whose events all expose a component, `search_events`
returns exactly the positively scored events (2 for a summary match plus 1
for a description match), in descending score order with ties in listing
order, truncated to `limit`, together with the count/query/calendar_id
echo. -/
theorem search_events_scored_sorted (s : ServerState) (p : Principal)
    (cals : List Calendar) (cal : Calendar) (cid q : String) (limit : Nat)
    (evs : List CalEvent)
    (h1 : s.principal = some p) (h2 : p.calendarsResult = .ok cals)
    (h3 : resolveCalendar cals cid = some cal) (h4 : cal.eventsResult = .ok evs)
    (h5 : ∀ e ∈ evs, e.component ≠ none) :
    search_events s cid q limit =
      (let L := ((evs.filter fun e => eventScore q e == 3) ++
          (evs.filter fun e => eventScore q e == 2) ++
          (evs.filter fun e => eventScore q e == 1)).take limit
      ([("events", Val.rawEvents L), ("count", Val.num L.length),
        ("query", Val.str q), ("calendar_id", Val.str cid)],
        [Eff.calendars, Eff.events])) := by
  have hres := searchResult_buckets q evs h5
  have hlen := congrArg List.length hres
  simp only [List.length_map] at hlen
  simp [search_events, searchEventsBody, h1, getCalendarById_ok p cid cals h2,
    M.bind_ok, M.call, M.pure, h3, h4, hres, hlen]

/-- Witness for C1: searching the four-event sample calendar for "meeting"
with limit 2. -/
theorem search_events_scored_sorted_witness :
    search_events wState "cal1" "meeting" 2 =
      (let L := (([wEvA, wEvB, wEvC, wEvD].filter fun e => eventScore "meeting" e == 3) ++
          ([wEvA, wEvB, wEvC, wEvD].filter fun e => eventScore "meeting" e == 2) ++
          ([wEvA, wEvB, wEvC, wEvD].filter fun e => eventScore "meeting" e == 1)).take 2
      ([("events", Val.rawEvents L), ("count", Val.num L.length),
        ("query", Val.str "meeting"), ("calendar_id", Val.str "cal1")],
        [Eff.calendars, Eff.events])) :=
  search_events_scored_sorted wState wPrincipal [wCal] wCal "cal1" "meeting" 2
    [wEvA, wEvB, wEvC, wEvD] rfl rfl rfl rfl (by decide)

/-- C7 counterexample: the tool-facade `get_events` puts the raw upstream
event objects in its success envelope, not normalized `CalendarEvent`
records — at the sample world no list of records matches its response. -/
theorem get_events_not_normalized_counterexample :
    ¬ getEventsNormalized wState "cal1" := by
  rintro ⟨ces, h⟩
  have hval : (get_events wState "cal1").1 =
      [("events", Val.rawEvents [wEvA, wEvB, wEvC, wEvD])] := rfl
  rw [hval] at h
  simp at h

/-- C7 (amended): for a resolvable calendar whose listing succeeds, the
tool `get_events` returns every event of the calendar in server-provided
order as raw upstream objects; the Event Model conversion exists only in
`CalDAVClient.get_events` (mapping `to_calendar_event`), a helper the tool
path does not invoke. -/
theorem get_events_returns_raw (s : ServerState) (p : Principal) (cals : List Calendar)
    (cal : Calendar) (cid : String) (evs : List CalEvent)
    (h1 : s.principal = some p) (h2 : p.calendarsResult = .ok cals)
    (h3 : resolveCalendar cals cid = some cal) (h4 : cal.eventsResult = .ok evs) :
    get_events s cid = ([("events", Val.rawEvents evs)], [Eff.calendars, Eff.events]) ∧
    CalDAVClient.get_events cal = evs.mapM to_calendar_event := by
  constructor
  · simp [get_events, getEventsBody, h1, getCalendarById_ok p cid cals h2,
      M.bind_ok, M.call, M.pure, h3, h4]
  · simp [CalDAVClient.get_events, h4]

/-- Witness for the amended C7 at the sample world. -/
theorem get_events_returns_raw_witness :
    get_events wState "cal1" =
      ([("events", Val.rawEvents [wEvA, wEvB, wEvC, wEvD])], [Eff.calendars, Eff.events]) ∧
    CalDAVClient.get_events wCal = [wEvA, wEvB, wEvC, wEvD].mapM to_calendar_event :=
  get_events_returns_raw wState wPrincipal [wCal] wCal "cal1" [wEvA, wEvB, wEvC, wEvD]
    rfl rfl rfl rfl

end CaldavMcp
